import Mathlib

/-!
Verification development for the mecha-agent repository.

The definitions below are a shallow embedding of the agent's provisioning
pipeline (src/provisioning/src/service.rs), the identity status check
(src/identity/src/service.rs), the messaging client and authentication
(src/messaging/src/service.rs), the channel receive helper
(src/commons/channel/src/lib.rs) and the HTTP-over-messaging tunnel
(src/app-services/src/service.rs).

External effects (backend HTTP calls, the openssl key and CSR generators,
the broadcast bus send outcome, the local HTTP server) are threaded as
explicit oracle inputs, so every function here is an executable Lean
function of its inputs.  File-system state is abstracted to the six
entries the agent ever touches under its data directory; the path
constants joining the data directory to each entry live in the
agent_settings crate, which is outside src/, so the entries are taken
from the spec (section 6, Persisted state): machine.pem, private_key.pem,
csr.pem, ca_bundle.pem, root.pem and the sibling key-value store
directory.
-/

namespace MechaAgent

/-- Entries of the data directory.  Modelled from the spec: the constants
CERT_PATH, PRIVATE_KEY_PATH, CSR_PATH, CA_BUNDLE_PATH, ROOT_CERT_PATH and
DB_PATH of the agent_settings crate are not under src/; the spec names
the files machine.pem, private_key.pem, csr.pem, ca_bundle.pem, root.pem
and a sibling key-value store directory. -/
inductive DataFile
  | machinePem
  | privateKeyPem
  | csrPem
  | caBundlePem
  | rootPem
  | dbDir

deriving DecidableEq, Repr

/-- File-system state of the data directory: the content stored at each
entry, or none when the entry does not exist. -/
def FileSys : Type := DataFile → Option String

/-- Write a file.  Models safe_write_to_path of the fs crate (not under
src/); modelled from the spec: a write-temp-then-rename that atomically
creates or replaces the destination file. -/
def fsWrite (fs : FileSys) (p : DataFile) (v : String) : FileSys :=
  fun q => if q = p then some v else fs q

/-- Remove one entry; removing an absent entry is a no-op. -/
def fsRemove (fs : FileSys) (p : DataFile) : FileSys :=
  fun q => if q = p then none else fs q

/-- Remove a list of entries.  Models remove_files of the fs crate (not
under src/); modelled from the spec: missing files are not fatal. -/
def fsRemoveAll (fs : FileSys) (ps : List DataFile) : FileSys :=
  ps.foldl fsRemove fs

/-- Existence test for an entry. -/
def fsExists (fs : FileSys) (p : DataFile) : Bool :=
  (fs p).isSome

/-- Provisioning lifecycle events, from the events crate variants used in
src/provisioning/src/service.rs. -/
inductive ProvisioningEvent
  | Provisioned
  | Deprovisioned

deriving DecidableEq, Repr

/-- Bus events; only the variant the provisioning service publishes is
needed here. -/
inductive Event
  | Provisioning (e : ProvisioningEvent)

deriving DecidableEq, Repr

/-- Error codes of src/provisioning/src/errors.rs that the embedded
functions can produce.  FileRemoveError stands for the untyped error
propagated from remove_files. -/
inductive ProvisioningErrorCode
  | InternalServerError
  | BadRequestError
  | NotFoundError
  | UnknownError
  | ParseResponseError
  | CertificateWriteError
  | CSRSignReadFileError
  | SendEventError
  | SettingsDatabaseDeleteError
  | CryptoGeneratePrivateKeyError
  | CryptoGenerateCSRError
  | FileRemoveError

deriving DecidableEq, Repr

/-- ProvisioningManifest from src/provisioning/src/service.rs. -/
structure ProvisioningManifest where
  machine_id : String
  cert_sign_url : String
  cert_valid_upto : String

deriving DecidableEq, Repr

/-- SignedCertificates from src/provisioning/src/service.rs. -/
structure SignedCertificates where
  cert : String
  root_cert : String
  ca_bundle : List String

deriving DecidableEq, Repr

/-- Encoding of the ca_bundle list written to ca_bundle.pem.  The source
serialises the vector with serde_json::to_string, an external library
call that cannot fail on a list of strings; the exact text is irrelevant
to every claim, only that this is what gets written. -/
def caBundleJson (l : List String) : String :=
  String.intercalate "," l

/-- Oracle for the external steps of perform_cryptography_operation:
outcome of the openssl private-key generator and CSR generator of the
crypto crate (each producing the PEM text written on success), the
cert-sign backend call, and the three certificate writes. -/
structure CryptoWorld where
  genPrivateKey : Except ProvisioningErrorCode String
  genCsr : Except ProvisioningErrorCode String
  signCsr : Except ProvisioningErrorCode SignedCertificates
  writeCertOk : Bool
  writeCaBundleOk : Bool
  writeRootOk : Bool

deriving Repr

/-- Embedding of perform_cryptography_operation
(src/provisioning/src/service.rs, lines 438-561): generate the private
key, generate the CSR, read the CSR back, post it for signing, then
write machine.pem, ca_bundle.pem and root.pem in that order via
write_certificates_to_path (lines 830-924).  Each step aborts the run,
leaving the file system as mutated so far. -/
def performCryptographyOperation (w : CryptoWorld) (fs : FileSys) :
    Except ProvisioningErrorCode Bool × FileSys :=
  match w.genPrivateKey with
  | .error e => (.error e, fs)
  | .ok keyPem =>
    let fs1 := fsWrite fs .privateKeyPem keyPem
    match w.genCsr with
    | .error e => (.error e, fs1)
    | .ok csrPem =>
      let fs2 := fsWrite fs1 .csrPem csrPem
      match fs2 .csrPem with
      | none => (.error .CSRSignReadFileError, fs2)
      | some _ =>
        match w.signCsr with
        | .error e => (.error e, fs2)
        | .ok certs =>
          if w.writeCertOk then
            let fs3 := fsWrite fs2 .machinePem certs.cert
            if w.writeCaBundleOk then
              let fs4 := fsWrite fs3 .caBundlePem (caBundleJson certs.ca_bundle)
              if w.writeRootOk then
                (.ok true, fsWrite fs4 .rootPem certs.root_cert)
              else (.error .CertificateWriteError, fs4)
            else (.error .CertificateWriteError, fs3)
          else (.error .CertificateWriteError, fs2)

/-- Oracle for provision_by_code: manifest lookup outcome, the
cryptography oracle, and whether the broadcast bus send succeeds (a
tokio broadcast send succeeds exactly when a live receiver exists). -/
structure ProvisionWorld where
  manifestResult : Except ProvisioningErrorCode ProvisioningManifest
  crypto : CryptoWorld
  eventReceivers : Bool

deriving Repr

/-- Embedding of provision_by_code (src/provisioning/src/service.rs,
lines 350-437): look up the manifest, run the cryptography pipeline,
then publish Provisioning(Provisioned); a failed publish turns into a
SendEventError.  The third component lists the events published during
the call, in order. -/
def provisionByCode (w : ProvisionWorld) (fs : FileSys) :
    Except ProvisioningErrorCode Bool × FileSys × List Event :=
  match w.manifestResult with
  | .error e => (.error e, fs, [])
  | .ok _manifest =>
    match performCryptographyOperation w.crypto fs with
    | (.error e, fs1) => (.error e, fs1, [])
    | (.ok _, fs1) =>
      if w.eventReceivers then
        (.ok true, fs1, [.Provisioning .Provisioned])
      else
        (.error .SendEventError, fs1, [])

/-- Embedding of get_provision_status (src/identity/src/service.rs,
lines 14-66): provisioned exactly when both machine.pem and
private_key.pem exist. -/
def getProvisionStatus (fs : FileSys) : Bool :=
  fsExists fs .machinePem && fsExists fs .privateKeyPem

/-- Observable actions a de_provision run performs, in order. -/
inductive DeprovisionAction
  | removedCertFiles
  | broadcast (e : Event)
  | removedDbDir

deriving DecidableEq, Repr

/-- Oracle for de_provision: injected file-system failures for the two
removal steps and the path construction, and whether the broadcast bus
has a live receiver. -/
structure DeprovisionWorld where
  removeFilesOk : Bool
  eventReceivers : Bool
  constructDbPathOk : Bool
  removeDbDirOk : Bool

deriving DecidableEq, Repr

/-- The five certificate and key files de_provision deletes, in source
order. -/
def certFileList : List DataFile :=
  [.machinePem, .privateKeyPem, .csrPem, .caBundlePem, .rootPem]

/-- Embedding of de_provision (src/provisioning/src/service.rs, lines
563-700): remove the five PEM files (missing files are not fatal; only
an injected file-system error aborts), broadcast
Provisioning(Deprovisioned) (a failed send aborts with SendEventError),
construct the key-value store path, then remove that directory.  The
trace records the performed actions in order; a step that fails leaves
the state reached so far. -/
def deProvision (w : DeprovisionWorld) (fs : FileSys) :
    Except ProvisioningErrorCode Bool × FileSys × List DeprovisionAction :=
  if ¬ w.removeFilesOk then
    (.error .FileRemoveError, fs, [])
  else
    let fs1 := fsRemoveAll fs certFileList
    let tr1 := [DeprovisionAction.removedCertFiles]
    if ¬ w.eventReceivers then
      (.error .SendEventError, fs1, tr1)
    else
      let tr2 := tr1 ++ [DeprovisionAction.broadcast (.Provisioning .Deprovisioned)]
      if ¬ w.constructDbPathOk then
        (.error .SettingsDatabaseDeleteError, fs1, tr2)
      else
        if ¬ w.removeDbDirOk then
          (.error .SettingsDatabaseDeleteError, fs1, tr2)
        else
          (.ok true, fsRemove fs1 .dbDir, tr2 ++ [DeprovisionAction.removedDbDir])

deriving instance DecidableEq for Except

/-- Boolean error test for Except results. -/
def isErr {ε α : Type} : Except ε α → Bool
  | .error _ => true
  | .ok _ => false

/-- Example file system with every entry present. -/
def fullFs : FileSys := fun _ => some "pem"

/-- Example file system with no entry present. -/
def emptyFs : FileSys := fun _ => none

/-- Error codes of src/messaging/src/errors.rs used by the embedded
functions.  SignError stands for the untyped error propagated from the
external signing helper. -/
inductive MessagingErrorCode
  | GetAuthNonceServerError
  | GetAuthNonceBadRequestError
  | GetAuthNonceNotFoundError
  | GetAuthTokenServerError
  | GetAuthTokenBadRequestError
  | GetAuthTokenNotFoundError
  | UnknownError
  | AuthNonceResponseParseError
  | AuthTokenResponseParseError
  | NatsClientNotInitialized
  | SignError

deriving DecidableEq, Repr

/-- Outcome of a backend HTTP POST as the source observes it: a
transport error optionally carrying an HTTP status code, or a response
whose body either parses as the generic envelope with a string payload
or fails to parse. -/
inductive HttpOutcome
  | transportErr (status : Option Nat)
  | response (payload : Option String)

deriving DecidableEq, Repr

/-- Embedding of get_auth_nonce (src/messaging/src/service.rs, lines
439-548): classify the transport error by status (500, 400, 404, other,
none), then parse the response envelope and return its payload as the
nonce. -/
def getAuthNonce (r : HttpOutcome) : Except MessagingErrorCode String :=
  match r with
  | .transportErr (some s) =>
    if s = 500 then .error .GetAuthNonceServerError
    else if s = 400 then .error .GetAuthNonceBadRequestError
    else if s = 404 then .error .GetAuthNonceNotFoundError
    else .error .UnknownError
  | .transportErr none => .error .UnknownError
  | .response none => .error .AuthNonceResponseParseError
  | .response (some payload) => .ok payload

/-- Embedding of get_auth_token (src/messaging/src/service.rs, lines
550-679): same status classification with the token error codes. -/
def getAuthToken (r : HttpOutcome) : Except MessagingErrorCode String :=
  match r with
  | .transportErr (some s) =>
    if s = 500 then .error .GetAuthTokenServerError
    else if s = 400 then .error .GetAuthTokenBadRequestError
    else if s = 404 then .error .GetAuthTokenNotFoundError
    else .error .UnknownError
  | .transportErr none => .error .UnknownError
  | .response none => .error .AuthTokenResponseParseError
  | .response (some payload) => .ok payload

/-- Oracles for one authenticate run: the nonce endpoint outcome, the
outcome of signing the nonce with the machine private key and
base64-encoding it (external crypto crate, not under src/), and the
token endpoint outcome. -/
structure AuthWorld where
  nonceOutcome : HttpOutcome
  signOutcome : Except MessagingErrorCode String
  tokenOutcome : HttpOutcome

deriving DecidableEq, Repr

/-- Embedding of authenticate (src/messaging/src/service.rs, lines
346-413): get the nonce, sign it, then request the token.  The second
component records whether the auth-token request was issued to the
token endpoint. -/
def authenticate (w : AuthWorld) : Except MessagingErrorCode String × Bool :=
  match getAuthNonce w.nonceOutcome with
  | .error e => (.error e, false)
  | .ok _nonce =>
    match w.signOutcome with
    | .error e => (.error e, false)
    | .ok _signedNonce =>
      match getAuthToken w.tokenOutcome with
      | .error e => (.error e, true)
      | .ok t => (.ok t, true)

/-- State of the underlying NatsClient of the nats_client crate (not
under src/).  Modelled from the spec: the broker session (the client
field that init_jetstream unwraps) exists only after a successful
Connect, and broker operations on a session-less client fail with
NatsClientNotInitialized. -/
structure NatsClientModel where
  addr : String
  connected : Bool

deriving DecidableEq, Repr

/-- Delegated broker operation of the underlying client.  Modelled from
the spec: before a successful Connect it fails with
NatsClientNotInitialized, afterwards it returns the broker result. -/
def NatsClientModel.brokerOp {α : Type} (c : NatsClientModel) (res : α) :
    Except MessagingErrorCode α :=
  if c.connected then .ok res else .error .NatsClientNotInitialized

/-- The Messaging struct of src/messaging/src/service.rs: an optional
NATS client. -/
structure Messaging where
  natsClient : Option NatsClientModel

deriving DecidableEq, Repr

/-- Embedding of Messaging::new (src/messaging/src/service.rs, lines
86-93): build the client only when asked to. -/
def Messaging.new (initClient : Bool) (natsAddr : String) : Messaging :=
  ⟨if initClient then some ⟨natsAddr, false⟩ else none⟩

/-- Result of one broker operation, distinguishing a Rust panic from a
returned error. -/
inductive OpOutcome (α : Type)
  | ok (a : α)
  | err (e : MessagingErrorCode)
  | panicked

deriving DecidableEq, Repr

/-- Embedding of Messaging::publish (lines 195-234): guard on the
optional client, then delegate. -/
def Messaging.publish (m : Messaging) (brokerRes : Bool) : OpOutcome Bool :=
  match m.natsClient with
  | none => .err .NatsClientNotInitialized
  | some c =>
    match c.brokerOp brokerRes with
    | .error e => .err e
    | .ok b => .ok b

/-- Embedding of Messaging::subscribe (lines 235-274); the subscriber
handle is abstracted to its subject string. -/
def Messaging.subscribe (m : Messaging) (brokerRes : String) : OpOutcome String :=
  match m.natsClient with
  | none => .err .NatsClientNotInitialized
  | some c =>
    match c.brokerOp brokerRes with
    | .error e => .err e
    | .ok s => .ok s

/-- Embedding of Messaging::request (lines 297-337); the reply is
abstracted to a byte list. -/
def Messaging.request (m : Messaging) (brokerRes : List Nat) : OpOutcome (List Nat) :=
  match m.natsClient with
  | none => .err .NatsClientNotInitialized
  | some c =>
    match c.brokerOp brokerRes with
    | .error e => .err e
    | .ok b => .ok b

/-- Embedding of Messaging::init_jetstream (lines 275-295): guard on the
optional client, then unwrap the inner broker session
(nats_client.client.clone().unwrap()), which panics when no session
exists yet; the JetStream handle is abstracted to Unit. -/
def Messaging.initJetstream (m : Messaging) : OpOutcome Unit :=
  match m.natsClient with
  | none => .err .NatsClientNotInitialized
  | some c => if c.connected then .ok () else .panicked

/-- True exactly when no successful Connect has completed on this
Messaging value. -/
def Messaging.notConnected (m : Messaging) : Bool :=
  match m.natsClient with
  | none => true
  | some c => !c.connected

/-- The channel receive timeout constant of src/commons/channel/src/lib.rs
in milliseconds. -/
def CHANNEL_RECV_TIMEOUT : Nat := 2000

/-- Timed result of recv_with_timeout: the reply was received, the
timeout_at future elapsed, or the interval branch fired its bail; each
carries the instant (milliseconds after the call) at which the function
returned. -/
inductive RecvResult
  | received (t : Nat)
  | elapsedErr (t : Nat)
  | intervalTimeoutErr (t : Nat)

deriving DecidableEq, Repr

/-- Embedding of recv_with_timeout (src/commons/channel/src/lib.rs,
lines 8-41) as a timed semantics.  The source selects between
timeout_at(now + 2000 ms, rx) and interval(2000 ms).tick().  The rx
branch becomes ready when the sender replies (replyAt, none when no
sender ever replies) or at the 2000 ms deadline with an Elapsed error.
A tokio interval completes its FIRST tick immediately, so the tick
branch is ready at 0 ms.  The select resolves to the branch that is
ready first; tieToRx resolves a same-instant race. -/
def recvWithTimeout (replyAt : Option Nat) (tieToRx : Bool) : RecvResult :=
  let rxReady : Nat :=
    match replyAt with
    | some t => min t CHANNEL_RECV_TIMEOUT
    | none => CHANNEL_RECV_TIMEOUT
  let tickReady : Nat := 0
  let rxOutcome : RecvResult :=
    match replyAt with
    | some t => if t < CHANNEL_RECV_TIMEOUT then .received t
                else .elapsedErr CHANNEL_RECV_TIMEOUT
    | none => .elapsedErr CHANNEL_RECV_TIMEOUT
  if rxReady < tickReady then rxOutcome
  else if tickReady < rxReady then .intervalTimeoutErr tickReady
  else if tieToRx then rxOutcome else .intervalTimeoutErr tickReady

/-- Error codes of src/app-services/src/errors.rs used by the embedded
tunnel functions. -/
inductive AppServicesErrorCode
  | RequestPayloadParseError
  | ContentLengthParseError
  | ReqIdParseError
  | MessageHeaderEmptyError
  | AckHeaderNotFoundError

deriving DecidableEq, Repr

/-- IncomingHttpRequest from src/app-services/src/service.rs; the header
map is an association list with exact-string keys, mirroring the
HashMap access of the source. -/
structure IncomingHttpRequest where
  uri : String
  method : String
  req_id : String
  headers : List (String × String)

deriving DecidableEq, Repr

/-- RequestState from src/app-services/src/service.rs, minus the reply
channel handle the claims never touch; the byte buffer is a list of
bytes (the with_capacity pre-sizing only reserves memory and is not
observable). -/
structure RequestState where
  uri : String
  reqHeaders : List (String × String)
  reqMethod : String
  reqBody : List Nat
  contentLength : Nat

deriving DecidableEq, Repr

/-- The per-request map guarded by the async mutex, as an association
list keyed by req_id. -/
def ReqMap : Type := List (String × RequestState)

/-- HashMap::insert semantics: replace any existing binding. -/
def mapInsert (k : String) (v : RequestState) (m : ReqMap) : ReqMap :=
  (k, v) :: List.filter (fun p => p.1 ≠ k) m

/-- HashMap::get semantics. -/
def mapLookup (m : ReqMap) (k : String) : Option RequestState :=
  match m with
  | [] => none
  | (a, v) :: rest => if a = k then some v else mapLookup rest k

/-- Association lookup with exact string keys, for header maps. -/
def assocLookup {β : Type} (l : List (String × β)) (k : String) : Option β :=
  match l with
  | [] => none
  | (a, v) :: rest => if a = k then some v else assocLookup rest k

/-- Model of the Rust str::ends_with test on UTF-8 strings. -/
def strEndsWith (s suff : String) : Bool :=
  decide (suff.data.length ≤ s.data.length) &&
  decide (s.data.drop (s.data.length - suff.data.length) = suff.data)

/-- Model of the Rust str::split on a single character: split the
character list at every occurrence, keeping empty segments, never
returning an empty list of segments. -/
def splitOnChar (c : Char) : List Char → List (List Char)
  | [] => [[]]
  | x :: xs =>
    match splitOnChar c xs with
    | [] => if x = c then [[], []] else [[x]]
    | y :: ys => if x = c then [] :: y :: ys else (x :: y) :: ys

/-- Dot-separated segments of a subject, as the Rust side computes
subject.split('.').collect(). -/
def strSegments (s : String) : List String :=
  (splitOnChar '.' s.data).map (fun l => { data := l })

/-- Accumulating digit-list parser for the usize::from_str model. -/
def digitsToNatGo : List Char → Nat → Option Nat
  | [], acc => some acc
  | c :: cs, acc =>
    if c.isDigit then digitsToNatGo cs (acc * 10 + (c.toNat - 48)) else none

/-- Digit-list parser for the usize::from_str model; empty input is
rejected. -/
def digitsToNat : List Char → Option Nat
  | [] => none
  | l => digitsToNatGo l 0

/-- Model of usize::from_str as used on the content-length header value:
an optional leading plus sign followed by at least one decimal digit
(overflow is disregarded, as the claims never approach it). -/
def parseNat (s : String) : Option Nat :=
  match s.data with
  | '+' :: rest => digitsToNat rest
  | l => digitsToNat l

/-- Response of the local HTTP server, already collected: its headers
and body bytes. -/
structure HttpResponseData where
  respHeaders : List (String × String)
  respBody : List Nat

deriving DecidableEq, Repr

/-- One HTTP request delivered to the local server at
http://localhost:port plus the request uri; body none models
make_request_without_body, some models make_request_with_body. -/
structure LocalDispatch where
  port : Nat
  uri : String
  method : String
  headers : List (String × String)
  body : Option (List Nat)

deriving DecidableEq, Repr

/-- One message arriving on the tunnel subscription.  payloadParse is
the serde_json parse outcome of payloadBytes as an IncomingHttpRequest
(external library call, supplied as an oracle and consulted only on
.req subjects); localResp is the local server's reply should this
message trigger a dispatch (also an oracle).  Failures of the hyper Uri
parse and of the local transport, which abort a handler after the
request content is fixed, are outside the model. -/
structure TunnelMessage where
  subject : String
  headers : Option (List (String × String))
  payloadBytes : List Nat
  payloadParse : Except Unit IncomingHttpRequest
  localResp : HttpResponseData

deriving Repr

/-- Embedding of extract_req_id_from_subject (src/app-services/src/service.rs,
lines 559-570): split on dots and return segment index 4 when at least 6
segments exist. -/
def extractReqIdFromSubject (subject : String) : Except AppServicesErrorCode String :=
  let parts := strSegments subject
  if h : 6 ≤ parts.length then .ok (parts.get ⟨4, by omega⟩)
  else .error .ReqIdParseError

/-- Embedding of extract_ack_subject (lines 527-557). -/
def extractAckSubject (headers : Option (List (String × String))) :
    Except AppServicesErrorCode String :=
  match headers with
  | none => .error .MessageHeaderEmptyError
  | some hm =>
    match assocLookup hm "Ack-To" with
    | some v => .ok v
    | none => .error .AckHeaderNotFoundError

/-- Embedding of handle_request_with_content (lines 572-644): append the
chunk to a copy of the stored buffer; on exact equality with the
expected content length dispatch to the local server with the assembled
body, leaving the stored state untouched; otherwise store the grown
buffer back and dispatch nothing. -/
def handleRequestWithContent (localPort : Nat) (st : RequestState)
    (chunk : List Nat) : Option LocalDispatch × RequestState :=
  let buf := st.reqBody ++ chunk
  if buf.length = st.contentLength then
    (some ⟨localPort, st.uri, st.reqMethod, st.reqHeaders, some buf⟩, st)
  else
    (none, { st with reqBody := buf })

/-- Tail of process_message once a local response exists: extract the
Ack-To subject and publish the serialized response to it; an empty
ack subject publishes nothing. -/
def finishResponse (msg : TunnelMessage) (map1 : ReqMap) (ds : List LocalDispatch) :
    Except AppServicesErrorCode Unit × ReqMap × List LocalDispatch ×
      List (String × HttpResponseData) :=
  match extractAckSubject msg.headers with
  | .error e => (.error e, map1, ds, [])
  | .ok ackSubject =>
    if ackSubject = "" then (.ok (), map1, ds, [])
    else (.ok (), map1, ds, [(ackSubject, msg.localResp)])

/-- Embedding of process_message (src/app-services/src/service.rs, lines
335-525).  On a .req subject: parse the envelope, read the
content-length header (exact lowercase key; missing means 0; an
unparseable value aborts), insert a fresh RequestState keyed by the
envelope req_id, and when the length is 0 dispatch immediately with no
body.  On a .data subject: extract the req_id from the subject, drop the
chunk when the id is unknown, else run handle_request_with_content.
Results: the run outcome, the map afterwards, the dispatches to the
local server, and the published acknowledgements.  Map mutations survive
later errors, as they do through the shared mutex in the source. -/
def processMessage (localPort : Nat) (msg : TunnelMessage) (map : ReqMap) :
    Except AppServicesErrorCode Unit × ReqMap × List LocalDispatch ×
      List (String × HttpResponseData) :=
  if strEndsWith msg.subject ".req" then
    match msg.payloadParse with
    | .error _ => (.error .RequestPayloadParseError, map, [], [])
    | .ok req =>
      let clResult : Except AppServicesErrorCode Nat :=
        match assocLookup req.headers "content-length" with
        | some s =>
          match parseNat s with
          | some n => .ok n
          | none => .error .ContentLengthParseError
        | none => .ok 0
      match clResult with
      | .error e => (.error e, map, [], [])
      | .ok contentLength =>
        let st : RequestState := ⟨req.uri, req.headers, req.method, [], contentLength⟩
        let map1 := mapInsert req.req_id st map
        if contentLength = 0 then
          finishResponse msg map1 [⟨localPort, req.uri, req.method, req.headers, none⟩]
        else
          (.ok (), map1, [], [])
  else if strEndsWith msg.subject ".data" then
    match extractReqIdFromSubject msg.subject with
    | .error e => (.error e, map, [], [])
    | .ok reqId =>
      match mapLookup map reqId with
      | none => (.ok (), map, [], [])
      | some st =>
        match handleRequestWithContent localPort st msg.payloadBytes with
        | (none, st1) => (.ok (), mapInsert reqId st1 map, [], [])
        | (some d, _st1) => finishResponse msg map [d]
  else
    (.ok (), map, [], [])

/-- Sequential consumption of the subscription messages in arrival
order, as in await_app_service_message (lines 258-333): per-message
errors are logged and dropped, dispatches accumulate in order. -/
def runMessages (localPort : Nat) (msgs : List TunnelMessage) (map : ReqMap) :
    ReqMap × List LocalDispatch :=
  match msgs with
  | [] => (map, [])
  | m :: rest =>
    let r := processMessage localPort m map
    let rr := runMessages localPort rest r.2.1
    (rr.1, r.2.2.1 ++ rr.2)

/-- Example message headers carrying an Ack-To reply subject. -/
def exHdrs : List (String × String) := [("Ack-To", "ack.r1")]

/-- Example local-server response. -/
def exResp : HttpResponseData := ⟨[], []⟩

/-- Example envelope message on a .req subject announcing request rid
with the given content-length header value. -/
def exReqMsg (rid cl : String) : TunnelMessage :=
  ⟨"x.req", some exHdrs, [], .ok ⟨"/hi", "GET", rid, [("content-length", cl)]⟩, exResp⟩

/-- Example body-chunk message on a .data subject. -/
def exDataMsg (subj : String) (chunk : List Nat) : TunnelMessage :=
  ⟨subj, some exHdrs, chunk, .error (), exResp⟩

/-- Example envelope message whose headers carry no content-length. -/
def exReqMsgNoCl : TunnelMessage :=
  ⟨"x.req", some exHdrs, [], .ok ⟨"/nb", "GET", "r9", []⟩, exResp⟩

theorem fsWrite_self (fs : FileSys) (p : DataFile) (v : String) :
    fsWrite fs p v p = some v := by
  simp [fsWrite]

theorem fsWrite_other (fs : FileSys) (p : DataFile) (v : String) (q : DataFile)
    (h : q ≠ p) : fsWrite fs p v q = fs q := by
  simp [fsWrite, h]

/-- C1: a successful provision_by_code leaves all five PEM files present,
makes get_provision_status true, and publishes exactly one
Provisioning(Provisioned) event. -/
theorem c1_provision_by_code_success (w : ProvisionWorld) (fs : FileSys)
    (h : (provisionByCode w fs).1 = .ok true) :
    (∀ p ∈ certFileList, fsExists (provisionByCode w fs).2.1 p = true) ∧
    getProvisionStatus (provisionByCode w fs).2.1 = true ∧
    (provisionByCode w fs).2.2 = [.Provisioning .Provisioned] := by
  obtain ⟨mr, ⟨gk, gc, sc, b1, b2, b3⟩, ev⟩ := w
  cases mr <;> cases gk <;> cases gc <;> cases sc <;>
    cases b1 <;> cases b2 <;> cases b3 <;> cases ev <;>
    simp_all [provisionByCode, performCryptographyOperation, getProvisionStatus,
      fsExists, fsWrite, certFileList]

/-- Witness for C1 at the happy-provision inputs of the spec scenario. -/
theorem c1_provision_by_code_success_witness :
    fsExists (provisionByCode ⟨.ok ⟨"12345", "/cert-sign", "2024-12-31T23:59:59Z"⟩,
        ⟨.ok "KEY", .ok "CSR", .ok ⟨"C", "R", ["B"]⟩, true, true, true⟩, true⟩
        emptyFs).2.1 .machinePem = true ∧
    getProvisionStatus (provisionByCode ⟨.ok ⟨"12345", "/cert-sign", "2024-12-31T23:59:59Z"⟩,
        ⟨.ok "KEY", .ok "CSR", .ok ⟨"C", "R", ["B"]⟩, true, true, true⟩, true⟩
        emptyFs).2.1 = true ∧
    (provisionByCode ⟨.ok ⟨"12345", "/cert-sign", "2024-12-31T23:59:59Z"⟩,
        ⟨.ok "KEY", .ok "CSR", .ok ⟨"C", "R", ["B"]⟩, true, true, true⟩, true⟩
        emptyFs).2.2 = [.Provisioning .Provisioned] := by
  have h := c1_provision_by_code_success
    ⟨.ok ⟨"12345", "/cert-sign", "2024-12-31T23:59:59Z"⟩,
      ⟨.ok "KEY", .ok "CSR", .ok ⟨"C", "R", ["B"]⟩, true, true, true⟩, true⟩
    emptyFs (by decide)
  exact ⟨h.1 .machinePem (by decide), h.2.1, h.2.2⟩

/-- C9: a provisioning run that fails before the certificate-write step
(key generation, CSR generation or CSR signing failed) errors out and
leaves every data-directory entry other than the private key and the CSR
exactly as it was; in particular machine.pem, ca_bundle.pem and root.pem
are neither created nor modified. -/
theorem c9_failure_before_certificate_write (w : CryptoWorld) (fs : FileSys)
    (hfail : isErr w.genPrivateKey = true ∨ isErr w.genCsr = true ∨
      isErr w.signCsr = true) :
    isErr (performCryptographyOperation w fs).1 = true ∧
    ∀ p, p ≠ DataFile.privateKeyPem → p ≠ DataFile.csrPem →
      (performCryptographyOperation w fs).2 p = fs p := by
  obtain ⟨gk, gc, sc, b1, b2, b3⟩ := w
  cases gk <;> cases gc <;> cases sc <;>
    simp_all [performCryptographyOperation, isErr, fsWrite]

/-- Witness for C9: a run whose CSR signing request fails. -/
theorem c9_failure_before_certificate_write_witness :
    isErr (performCryptographyOperation
      ⟨.ok "KEY", .ok "CSR", .error .InternalServerError, true, true, true⟩ fullFs).1 = true ∧
    (performCryptographyOperation
      ⟨.ok "KEY", .ok "CSR", .error .InternalServerError, true, true, true⟩ fullFs).2
      DataFile.machinePem = fullFs DataFile.machinePem := by
  have h := c9_failure_before_certificate_write
    ⟨.ok "KEY", .ok "CSR", .error .InternalServerError, true, true, true⟩ fullFs
    (Or.inr (Or.inr (by decide)))
  exact ⟨h.1, h.2 .machinePem (by decide) (by decide)⟩

/-- C2: a successful de_provision leaves none of the five PEM files, and
its action trace broadcasts Deprovisioned strictly before removing the
key-value store directory; moreover missing files are never fatal (with
no injected file-system failure the call succeeds on any file system),
while a broadcast-send failure makes the call return an error. -/
theorem c2_de_provision_success :
    (∀ w fs, (deProvision w fs).1 = .ok true →
      (∀ p ∈ certFileList, fsExists (deProvision w fs).2.1 p = false) ∧
      (deProvision w fs).2.2 = [.removedCertFiles,
        .broadcast (.Provisioning .Deprovisioned), .removedDbDir]) ∧
    (∀ fs, (deProvision ⟨true, true, true, true⟩ fs).1 = .ok true) ∧
    (∀ w fs, w.removeFilesOk = true → w.eventReceivers = false →
      (deProvision w fs).1 = .error .SendEventError) := by
  refine ⟨?_, ?_, ?_⟩
  · intro w fs h
    obtain ⟨r1, r2, r3, r4⟩ := w
    cases r1 <;> cases r2 <;> cases r3 <;> cases r4 <;>
      simp_all [deProvision, certFileList, fsRemoveAll, fsRemove, fsExists]
  · intro fs
    simp [deProvision]
  · intro w fs h1 h2
    obtain ⟨r1, r2, r3, r4⟩ := w
    simp_all [deProvision]

/-- Witness for C2 at a fully present file system with all external
steps succeeding, plus the send-failure clause at a failing bus. -/
theorem c2_de_provision_success_witness :
    ((deProvision ⟨true, true, true, true⟩ fullFs).1 = .ok true) ∧
    fsExists (deProvision ⟨true, true, true, true⟩ fullFs).2.1 DataFile.machinePem = false ∧
    (deProvision ⟨true, true, true, true⟩ fullFs).2.2 = [.removedCertFiles,
      .broadcast (.Provisioning .Deprovisioned), .removedDbDir] ∧
    (deProvision ⟨true, false, true, true⟩ fullFs).1 = .error .SendEventError := by
  have hok : (deProvision ⟨true, true, true, true⟩ fullFs).1 = .ok true :=
    c2_de_provision_success.2.1 fullFs
  have h := c2_de_provision_success.1 ⟨true, true, true, true⟩ fullFs hok
  exact ⟨hok, h.1 .machinePem (by decide), h.2,
    c2_de_provision_success.2.2 ⟨true, false, true, true⟩ fullFs rfl rfl⟩

/-- C10: de_provision is not atomic on error.  When the Deprovisioned
broadcast fails (no live receivers) the call errors after the five PEM
files are already gone and no event was broadcast; when removing the
key-value store directory fails the call errors with the files gone, the
event broadcast, and the store still present. -/
theorem c10_de_provision_not_atomic :
    ((deProvision ⟨true, false, true, true⟩ fullFs).1 = .error .SendEventError ∧
      fsExists (deProvision ⟨true, false, true, true⟩ fullFs).2.1 DataFile.machinePem = false ∧
      fsExists (deProvision ⟨true, false, true, true⟩ fullFs).2.1 DataFile.privateKeyPem = false ∧
      (deProvision ⟨true, false, true, true⟩ fullFs).2.2 = [.removedCertFiles] ∧
      fsExists (deProvision ⟨true, false, true, true⟩ fullFs).2.1 DataFile.dbDir = true) ∧
    ((deProvision ⟨true, true, true, false⟩ fullFs).1 =
        .error .SettingsDatabaseDeleteError ∧
      fsExists (deProvision ⟨true, true, true, false⟩ fullFs).2.1 DataFile.machinePem = false ∧
      (deProvision ⟨true, true, true, false⟩ fullFs).2.2 = [.removedCertFiles,
        .broadcast (.Provisioning .Deprovisioned)] ∧
      fsExists (deProvision ⟨true, true, true, false⟩ fullFs).2.1 DataFile.dbDir = true) := by
  decide

/-- C6: a nonce endpoint failure with HTTP 500 makes authenticate fail
with the ServerError classification and no auth-token request is issued;
the nonce status classification maps 500 to ServerError, 400 to
BadRequest, 404 to NotFound and anything else to Unknown. -/
theorem c6_authenticate_nonce_server_error :
    (∀ w : AuthWorld, w.nonceOutcome = .transportErr (some 500) →
      authenticate w = (.error .GetAuthNonceServerError, false)) ∧
    getAuthNonce (.transportErr (some 400)) = .error .GetAuthNonceBadRequestError ∧
    getAuthNonce (.transportErr (some 404)) = .error .GetAuthNonceNotFoundError ∧
    (∀ s : Nat, s ≠ 500 → s ≠ 400 → s ≠ 404 →
      getAuthNonce (.transportErr (some s)) = .error .UnknownError) := by
  refine ⟨?_, rfl, rfl, ?_⟩
  · intro w h
    obtain ⟨n, sg, t⟩ := w
    simp only at h
    subst h
    rfl
  · intro s h1 h2 h3
    simp [getAuthNonce, h1, h2, h3]

/-- Witness for C6 at a concrete failing world and the status 418. -/
theorem c6_authenticate_nonce_server_error_witness :
    authenticate ⟨.transportErr (some 500), .ok "sig", .response (some "tok")⟩ =
      (.error .GetAuthNonceServerError, false) ∧
    getAuthNonce (.transportErr (some 418)) = .error .UnknownError := by
  exact ⟨c6_authenticate_nonce_server_error.1
      ⟨.transportErr (some 500), .ok "sig", .response (some "tok")⟩ rfl,
    c6_authenticate_nonce_server_error.2.2.2 418 (by decide) (by decide) (by decide)⟩

/-- Counterexample to C7: a Messaging constructed with a NATS client
(initialize_client true) has not yet connected, and init_jetstream on it
panics on the unwrap of the absent broker session instead of failing
with NatsClientNotInitialized. -/
theorem c7_init_jetstream_panics_before_connect :
    Messaging.notConnected (Messaging.new true "nats://a") = true ∧
    Messaging.initJetstream (Messaging.new true "nats://a") = .panicked ∧
    Messaging.initJetstream (Messaging.new true "nats://a") ≠
      .err .NatsClientNotInitialized := by
  decide

/-- C7 amended: before a successful Connect, publish, subscribe and
request fail with NatsClientNotInitialized; init_jetstream does so only
when the Messaging was constructed without a NATS client, and panics on
the absent broker session when constructed with one. -/
theorem c7_broker_ops_before_connect (m : Messaging)
    (h : Messaging.notConnected m = true) :
    (∀ r, m.publish r = .err .NatsClientNotInitialized) ∧
    (∀ r, m.subscribe r = .err .NatsClientNotInitialized) ∧
    (∀ r, m.request r = .err .NatsClientNotInitialized) ∧
    (m.natsClient = none → m.initJetstream = .err .NatsClientNotInitialized) ∧
    (∀ c, m.natsClient = some c → m.initJetstream = .panicked) := by
  obtain ⟨nc⟩ := m
  cases nc with
  | none =>
    refine ⟨fun r => rfl, fun r => rfl, fun r => rfl, fun _ => rfl, fun c hc => ?_⟩
    exact absurd hc (by simp)
  | some c =>
    simp only [Messaging.notConnected, Bool.not_eq_true'] at h
    refine ⟨?_, ?_, ?_, ?_, ?_⟩
    · intro r
      simp [Messaging.publish, NatsClientModel.brokerOp, h]
    · intro r
      simp [Messaging.subscribe, NatsClientModel.brokerOp, h]
    · intro r
      simp [Messaging.request, NatsClientModel.brokerOp, h]
    · intro hc
      exact absurd hc (by simp)
    · intro c1 hc
      cases hc
      simp [Messaging.initJetstream, h]

/-- Witness for C7 amended at the two pre-connect states. -/
theorem c7_broker_ops_before_connect_witness :
    Messaging.publish (Messaging.new false "nats://a") true =
      .err .NatsClientNotInitialized ∧
    Messaging.subscribe (Messaging.new false "nats://a") "subj" =
      .err .NatsClientNotInitialized ∧
    Messaging.initJetstream (Messaging.new false "nats://a") =
      .err .NatsClientNotInitialized ∧
    Messaging.request (Messaging.new true "nats://a") [1] =
      .err .NatsClientNotInitialized := by
  have h1 := c7_broker_ops_before_connect (Messaging.new false "nats://a") (by decide)
  have h2 := c7_broker_ops_before_connect (Messaging.new true "nats://a") (by decide)
  exact ⟨h1.1 true, h1.2.1 "subj", h1.2.2.2.1 (by decide), h2.2.2.1 [1]⟩

/-- C8 divergence: with no sender replying, recv_with_timeout returns
its timeout bail at 0 ms - the first tick of a tokio interval completes
immediately - under either resolution of the select race, instead of
after the claimed 2000 plus or minus 50 ms window; 0 ms is strictly
before the 1950 ms lower edge of that window. -/
theorem c8_recv_with_timeout_fires_immediately :
    recvWithTimeout none true = .intervalTimeoutErr 0 ∧
    recvWithTimeout none false = .intervalTimeoutErr 0 ∧
    (0 : Nat) < 1950 := by
  decide

theorem mapLookup_insert_self (k : String) (v : RequestState) (m : ReqMap) :
    mapLookup (mapInsert k v m) k = some v := by
  simp [mapInsert, mapLookup]

theorem finishResponse_map (msg : TunnelMessage) (m : ReqMap)
    (ds : List LocalDispatch) : (finishResponse msg m ds).2.1 = m := by
  unfold finishResponse
  split
  · simp
  · split <;> simp

theorem finishResponse_dispatches (msg : TunnelMessage) (m : ReqMap)
    (ds : List LocalDispatch) : (finishResponse msg m ds).2.2.1 = ds := by
  unfold finishResponse
  split
  · simp
  · split <;> simp

/-- Counterexample to C3: after an envelope with content-length 2
followed by one 2-byte chunk the request was dispatched, yet its entry
is still in the map; and after an envelope with content-length 1
followed by a 2-byte chunk the stored buffer is longer than the content
length, violating the claimed invariant. -/
theorem c3_entry_not_removed_and_buffer_overshoots :
    (runMessages 8080 [exReqMsg "r1" "2", exDataMsg "a.b.c.d.r1.data" [97, 98]] []).2.length
      = 1 ∧
    mapLookup (runMessages 8080
      [exReqMsg "r1" "2", exDataMsg "a.b.c.d.r1.data" [97, 98]] []).1 "r1" ≠ none ∧
    mapLookup (runMessages 8080
      [exReqMsg "r2" "1", exDataMsg "a.b.c.d.r2.data" [97, 98]] []).1 "r2" =
      some ⟨"/hi", [("content-length", "1")], "GET", [97, 98], 1⟩ ∧
    ¬ ((2 : Nat) ≤ 1) := by
  decide

/-- C3 amended: when appending a .data chunk makes the buffer equal the
content length the request is dispatched exactly once for that chunk,
but the map is left entirely unchanged - the entry is neither removed
nor updated; when the lengths differ (including an overshoot) nothing is
dispatched and the entry is overwritten with the grown buffer, which may
exceed content_length. -/
theorem c3_equality_dispatch_keeps_entry (localPort : Nat) (msg : TunnelMessage)
    (map : ReqMap) (rid : String) (st : RequestState)
    (h1 : strEndsWith msg.subject ".req" = false)
    (h2 : strEndsWith msg.subject ".data" = true)
    (h3 : extractReqIdFromSubject msg.subject = .ok rid)
    (h4 : mapLookup map rid = some st) :
    ((st.reqBody ++ msg.payloadBytes).length = st.contentLength →
      (processMessage localPort msg map).2.2.1 =
        [⟨localPort, st.uri, st.reqMethod, st.reqHeaders,
          some (st.reqBody ++ msg.payloadBytes)⟩] ∧
      (processMessage localPort msg map).2.1 = map) ∧
    ((st.reqBody ++ msg.payloadBytes).length ≠ st.contentLength →
      (processMessage localPort msg map).2.2.1 = [] ∧
      (processMessage localPort msg map).2.1 =
        mapInsert rid { st with reqBody := st.reqBody ++ msg.payloadBytes } map) := by
  constructor
  · intro heq
    rw [List.length_append] at heq
    simp [processMessage, h1, h2, h3, h4, handleRequestWithContent, heq,
      finishResponse_map, finishResponse_dispatches]
  · intro hne
    rw [List.length_append] at hne
    simp [processMessage, h1, h2, h3, h4, handleRequestWithContent, hne]

/-- Witness for C3 amended at the concrete two-message runs. -/
theorem c3_equality_dispatch_keeps_entry_witness :
    ((processMessage 8080 (exDataMsg "a.b.c.d.r1.data" [97, 98])
        [("r1", ⟨"/hi", [("content-length", "2")], "GET", [], 2⟩)]).2.2.1 =
      [⟨8080, "/hi", "GET", [("content-length", "2")], some [97, 98]⟩] ∧
      (processMessage 8080 (exDataMsg "a.b.c.d.r1.data" [97, 98])
        [("r1", ⟨"/hi", [("content-length", "2")], "GET", [], 2⟩)]).2.1 =
        [("r1", ⟨"/hi", [("content-length", "2")], "GET", [], 2⟩)]) ∧
    ((processMessage 8080 (exDataMsg "a.b.c.d.r2.data" [97, 98])
        [("r2", ⟨"/hi", [("content-length", "1")], "GET", [], 1⟩)]).2.2.1 = [] ∧
      (processMessage 8080 (exDataMsg "a.b.c.d.r2.data" [97, 98])
        [("r2", ⟨"/hi", [("content-length", "1")], "GET", [], 1⟩)]).2.1 =
        mapInsert "r2" ⟨"/hi", [("content-length", "1")], "GET", [97, 98], 1⟩
          [("r2", ⟨"/hi", [("content-length", "1")], "GET", [], 1⟩)]) := by
  refine ⟨(c3_equality_dispatch_keeps_entry 8080 (exDataMsg "a.b.c.d.r1.data" [97, 98])
      [("r1", ⟨"/hi", [("content-length", "2")], "GET", [], 2⟩)] "r1"
      ⟨"/hi", [("content-length", "2")], "GET", [], 2⟩
      (by decide) (by decide) (by decide) (by decide)).1 (by decide),
    (c3_equality_dispatch_keeps_entry 8080 (exDataMsg "a.b.c.d.r2.data" [97, 98])
      [("r2", ⟨"/hi", [("content-length", "1")], "GET", [], 1⟩)] "r2"
      ⟨"/hi", [("content-length", "1")], "GET", [], 1⟩
      (by decide) (by decide) (by decide) (by decide)).2 (by decide)⟩

theorem runMessages_cons (localPort : Nat) (m : TunnelMessage)
    (msgs : List TunnelMessage) (map : ReqMap) :
    runMessages localPort (m :: msgs) map =
      ((runMessages localPort msgs (processMessage localPort m map).2.1).1,
        (processMessage localPort m map).2.2.1 ++
          (runMessages localPort msgs (processMessage localPort m map).2.1).2) := rfl

theorem processMessage_data_eq (localPort : Nat) (msg : TunnelMessage)
    (map : ReqMap) (rid : String) (st : RequestState)
    (h1 : strEndsWith msg.subject ".req" = false)
    (h2 : strEndsWith msg.subject ".data" = true)
    (h3 : extractReqIdFromSubject msg.subject = .ok rid)
    (h4 : mapLookup map rid = some st)
    (heq : st.reqBody.length + msg.payloadBytes.length = st.contentLength) :
    processMessage localPort msg map =
      finishResponse msg map [⟨localPort, st.uri, st.reqMethod, st.reqHeaders,
        some (st.reqBody ++ msg.payloadBytes)⟩] := by
  simp [processMessage, h1, h2, h3, h4, handleRequestWithContent, heq]

theorem processMessage_data_ne (localPort : Nat) (msg : TunnelMessage)
    (map : ReqMap) (rid : String) (st : RequestState)
    (h1 : strEndsWith msg.subject ".req" = false)
    (h2 : strEndsWith msg.subject ".data" = true)
    (h3 : extractReqIdFromSubject msg.subject = .ok rid)
    (h4 : mapLookup map rid = some st)
    (hne : st.reqBody.length + msg.payloadBytes.length ≠ st.contentLength) :
    processMessage localPort msg map =
      (.ok (), mapInsert rid { st with reqBody := st.reqBody ++ msg.payloadBytes } map,
        [], []) := by
  simp [processMessage, h1, h2, h3, h4, handleRequestWithContent, hne]

/-- Counterexample to C5: after an envelope with content-length 1, a
2-byte chunk overshoots the expected length, yet process_message
reports success (no OversizedBody or any other error), performs no
dispatch, and keeps the entry in the map with the oversized buffer. -/
theorem c5_overshoot_raises_no_error :
    (processMessage 8080 (exDataMsg "a.b.c.d.r1.data" [97, 98])
      [("r1", ⟨"/hi", [("content-length", "1")], "GET", [], 1⟩)]).1 = .ok () ∧
    (processMessage 8080 (exDataMsg "a.b.c.d.r1.data" [97, 98])
      [("r1", ⟨"/hi", [("content-length", "1")], "GET", [], 1⟩)]).2.2.1 = [] ∧
    mapLookup (processMessage 8080 (exDataMsg "a.b.c.d.r1.data" [97, 98])
      [("r1", ⟨"/hi", [("content-length", "1")], "GET", [], 1⟩)]).2.1 "r1" =
      some ⟨"/hi", [("content-length", "1")], "GET", [97, 98], 1⟩ := by
  decide

/-- C5 amended: a chunk that pushes the buffer beyond the content length
is not an error: the message handler returns success, dispatches
nothing, and overwrites the entry with the oversized buffer; moreover
any entry whose buffer already exceeds its content length never
dispatches on a further chunk. -/
theorem c5_oversized_request_never_dispatched (localPort : Nat)
    (msg : TunnelMessage) (map : ReqMap) (rid : String) (st : RequestState)
    (h1 : strEndsWith msg.subject ".req" = false)
    (h2 : strEndsWith msg.subject ".data" = true)
    (h3 : extractReqIdFromSubject msg.subject = .ok rid)
    (h4 : mapLookup map rid = some st)
    (hover : st.contentLength < (st.reqBody ++ msg.payloadBytes).length) :
    ((processMessage localPort msg map).1 = .ok () ∧
      (processMessage localPort msg map).2.2.1 = [] ∧
      (processMessage localPort msg map).2.1 =
        mapInsert rid { st with reqBody := st.reqBody ++ msg.payloadBytes } map) ∧
    (∀ (msg2 : TunnelMessage) (map2 : ReqMap) (st2 : RequestState),
      strEndsWith msg2.subject ".req" = false →
      strEndsWith msg2.subject ".data" = true →
      extractReqIdFromSubject msg2.subject = .ok rid →
      mapLookup map2 rid = some st2 →
      st2.contentLength < st2.reqBody.length →
      (processMessage localPort msg2 map2).1 = .ok () ∧
      (processMessage localPort msg2 map2).2.2.1 = []) := by
  rw [List.length_append] at hover
  constructor
  · have hne : st.reqBody.length + msg.payloadBytes.length ≠ st.contentLength := by
      omega
    rw [processMessage_data_ne localPort msg map rid st h1 h2 h3 h4 hne]
    exact ⟨rfl, rfl, rfl⟩
  · intro msg2 map2 st2 g1 g2 g3 g4 g5
    have hne2 : st2.reqBody.length + msg2.payloadBytes.length ≠ st2.contentLength := by
      omega
    rw [processMessage_data_ne localPort msg2 map2 rid st2 g1 g2 g3 g4 hne2]
    exact ⟨rfl, rfl⟩

/-- Witness for C5 amended at the concrete overshooting run. -/
theorem c5_oversized_request_never_dispatched_witness :
    (processMessage 8080 (exDataMsg "a.b.c.d.r2.data" [97, 98, 99])
      [("r2", ⟨"/hi", [("content-length", "1")], "GET", [], 1⟩)]).1 = .ok () ∧
    (processMessage 8080 (exDataMsg "a.b.c.d.r2.data" [97, 98, 99])
      [("r2", ⟨"/hi", [("content-length", "1")], "GET", [], 1⟩)]).2.2.1 = [] ∧
    (processMessage 8080 (exDataMsg "a.b.c.d.r2.data" [99])
      [("r2", ⟨"/hi", [("content-length", "1")], "GET", [97, 98], 1⟩)]).2.2.1 = [] := by
  have h := c5_oversized_request_never_dispatched 8080
    (exDataMsg "a.b.c.d.r2.data" [97, 98, 99])
    [("r2", ⟨"/hi", [("content-length", "1")], "GET", [], 1⟩)] "r2"
    ⟨"/hi", [("content-length", "1")], "GET", [], 1⟩
    (by decide) (by decide) (by decide) (by decide) (by decide)
  exact ⟨h.1.1, h.1.2.1,
    (h.2 (exDataMsg "a.b.c.d.r2.data" [99])
      [("r2", ⟨"/hi", [("content-length", "1")], "GET", [97, 98], 1⟩)]
      ⟨"/hi", [("content-length", "1")], "GET", [97, 98], 1⟩
      (by decide) (by decide) (by decide) (by decide) (by decide)).2⟩

theorem processMessage_req_pos (localPort : Nat) (msg : TunnelMessage)
    (map : ReqMap) (req : IncomingHttpRequest) (clStr : String) (cl : Nat)
    (h1 : strEndsWith msg.subject ".req" = true)
    (hp : msg.payloadParse = .ok req)
    (hcl : assocLookup req.headers "content-length" = some clStr)
    (hn : parseNat clStr = some cl)
    (hpos : cl ≠ 0) :
    processMessage localPort msg map =
      (.ok (), mapInsert req.req_id ⟨req.uri, req.headers, req.method, [], cl⟩ map,
        [], []) := by
  simp [processMessage, h1, hp, hcl, hn, hpos]

theorem processMessage_req_missing_cl (localPort : Nat) (msg : TunnelMessage)
    (map : ReqMap) (req : IncomingHttpRequest)
    (h1 : strEndsWith msg.subject ".req" = true)
    (hp : msg.payloadParse = .ok req)
    (hcl : assocLookup req.headers "content-length" = none) :
    processMessage localPort msg map =
      finishResponse msg
        (mapInsert req.req_id ⟨req.uri, req.headers, req.method, [], 0⟩ map)
        [⟨localPort, req.uri, req.method, req.headers, none⟩] := by
  simp [processMessage, h1, hp, hcl]

theorem runMessages_data_loop (localPort : Nat) (rid : String)
    (msgs : List TunnelMessage) :
    ∀ (map : ReqMap) (st : RequestState),
      (∀ m ∈ msgs, strEndsWith m.subject ".req" = false ∧
        strEndsWith m.subject ".data" = true ∧
        extractReqIdFromSubject m.subject = .ok rid) →
      (∀ m ∈ msgs, m.payloadBytes ≠ []) →
      mapLookup map rid = some st →
      st.reqBody.length + (msgs.map (fun m => m.payloadBytes.length)).sum
        = st.contentLength →
      st.reqBody.length < st.contentLength →
      (runMessages localPort msgs map).2 =
        [⟨localPort, st.uri, st.reqMethod, st.reqHeaders,
          some (st.reqBody ++ (msgs.map (fun m => m.payloadBytes)).flatten)⟩] := by
  induction msgs with
  | nil =>
    intro map st _ _ _ hsum hlt
    simp at hsum
    omega
  | cons m ms ih =>
    intro map st hm hne hlook hsum hlt
    obtain ⟨hm1, hm2, hm3⟩ := hm m (by simp)
    rcases hms : ms with _ | ⟨m2, rest⟩
    · subst hms
      have heq : st.reqBody.length + m.payloadBytes.length = st.contentLength := by
        simp at hsum
        omega
      rw [runMessages_cons,
        processMessage_data_eq localPort m map rid st hm1 hm2 hm3 hlook heq]
      simp [finishResponse_dispatches, finishResponse_map, runMessages]
    · subst hms
      have hm2pos : 0 < m2.payloadBytes.length := by
        have := hne m2 (by simp)
        exact List.length_pos.mpr this
      have hneq : st.reqBody.length + m.payloadBytes.length ≠ st.contentLength := by
        simp at hsum
        omega
      rw [runMessages_cons,
        processMessage_data_ne localPort m map rid st hm1 hm2 hm3 hlook hneq]
      have hrec := ih (mapInsert rid { st with reqBody := st.reqBody ++ m.payloadBytes } map)
        { st with reqBody := st.reqBody ++ m.payloadBytes }
        (fun x hx => hm x (by simp [hx]))
        (fun x hx => hne x (by simp [hx]))
        (mapLookup_insert_self rid _ map)
        (by simp at hsum ⊢; omega)
        (by simp at hsum ⊢; omega)
      simp only [hrec]
      simp

/-- C4: a tunneled request whose envelope carries a positive
content-length and whose nonempty .data chunks sum exactly to it is
dispatched with body equal to the concatenation of the chunk payloads in
arrival order, of total length equal to the content-length; an envelope
without a content-length header dispatches immediately with no body. -/
theorem c4_reassembled_body_is_chunk_concatenation :
    (∀ (localPort : Nat) (mReq : TunnelMessage) (msgs : List TunnelMessage)
        (req : IncomingHttpRequest) (clStr : String) (cl : Nat) (map0 : ReqMap),
      strEndsWith mReq.subject ".req" = true →
      mReq.payloadParse = .ok req →
      assocLookup req.headers "content-length" = some clStr →
      parseNat clStr = some cl →
      0 < cl →
      (∀ m ∈ msgs, strEndsWith m.subject ".req" = false ∧
        strEndsWith m.subject ".data" = true ∧
        extractReqIdFromSubject m.subject = .ok req.req_id) →
      (∀ m ∈ msgs, m.payloadBytes ≠ []) →
      (msgs.map (fun m => m.payloadBytes.length)).sum = cl →
      (runMessages localPort (mReq :: msgs) map0).2 =
        [⟨localPort, req.uri, req.method, req.headers,
          some ((msgs.map (fun m => m.payloadBytes)).flatten)⟩] ∧
      ((msgs.map (fun m => m.payloadBytes)).flatten).length = cl) ∧
    (∀ (localPort : Nat) (mReq : TunnelMessage) (req : IncomingHttpRequest)
        (map0 : ReqMap),
      strEndsWith mReq.subject ".req" = true →
      mReq.payloadParse = .ok req →
      assocLookup req.headers "content-length" = none →
      (runMessages localPort [mReq] map0).2 =
        [⟨localPort, req.uri, req.method, req.headers, none⟩]) := by
  constructor
  · intro localPort mReq msgs req clStr cl map0 h1 hp hcl hn hpos hm hne hsum
    have hjoin : ((msgs.map (fun m => m.payloadBytes)).flatten).length = cl := by
      rw [List.length_flatten]
      rw [List.map_map]
      exact hsum
    refine ⟨?_, hjoin⟩
    rw [runMessages_cons,
      processMessage_req_pos localPort mReq map0 req clStr cl h1 hp hcl hn
        (Nat.pos_iff_ne_zero.mp hpos)]
    have hloop := runMessages_data_loop localPort req.req_id msgs
      (mapInsert req.req_id ⟨req.uri, req.headers, req.method, [], cl⟩ map0)
      ⟨req.uri, req.headers, req.method, [], cl⟩
      hm hne (mapLookup_insert_self _ _ _) (by simpa using hsum) (by simpa using hpos)
    simp only [hloop]
    simp
  · intro localPort mReq req map0 h1 hp hcl
    rw [runMessages_cons,
      processMessage_req_missing_cl localPort mReq map0 req h1 hp hcl]
    simp [finishResponse_dispatches, finishResponse_map, runMessages]

/-- Witness for C4 at the chunked scenario (content-length 10, chunks of
4, 4 and 2 bytes) and at an envelope without a content-length header. -/
theorem c4_reassembled_body_is_chunk_concatenation_witness :
    (runMessages 8080 [exReqMsg "r1" "10",
      exDataMsg "a.b.c.d.r1.data" [97, 98, 99, 100],
      exDataMsg "a.b.c.d.r1.data" [101, 102, 103, 104],
      exDataMsg "a.b.c.d.r1.data" [105, 106]] []).2 =
      [⟨8080, "/hi", "GET", [("content-length", "10")],
        some [97, 98, 99, 100, 101, 102, 103, 104, 105, 106]⟩] ∧
    (runMessages 8080 [exReqMsgNoCl] []).2 =
      [⟨8080, "/nb", "GET", [], none⟩] := by
  have hA := c4_reassembled_body_is_chunk_concatenation.1 8080 (exReqMsg "r1" "10")
    [exDataMsg "a.b.c.d.r1.data" [97, 98, 99, 100],
      exDataMsg "a.b.c.d.r1.data" [101, 102, 103, 104],
      exDataMsg "a.b.c.d.r1.data" [105, 106]]
    ⟨"/hi", "GET", "r1", [("content-length", "10")]⟩ "10" 10 []
    (by decide) (by decide) (by decide) (by decide) (by decide)
    (by decide) (by decide) (by decide)
  have hB := c4_reassembled_body_is_chunk_concatenation.2 8080 exReqMsgNoCl
    ⟨"/nb", "GET", "r9", []⟩ [] (by decide) (by decide) (by decide)
  constructor
  · rw [hA.1]
    decide
  · rw [hB]

end MechaAgent
